import Mathlib

/-
Verification of the OMF queue consumer service (consumer.service.ts).

The embedding models:
- the DynamoDB table as a list of user items (attributes optional, the
  primary key `id` always present), with put (overwrite) and conditional
  update (`attribute_exists(id)`) semantics;
- the SQS message dispatcher `handleUserEvent`, its outer try/catch, the
  create / update / updateStatus branches, and the JavaScript falsiness
  checks (`!x`, `x || d`) on optional string fields;
- one iteration of the polling loop `pollQueue` (receive outcome leading
  to sequential per-message dispatch-then-delete and the next scheduling
  action);
- the two read endpoints `getUserStatus` and `getEntireUserDetails` with
  their try/catch error wrapping.

Nondeterministic environment inputs (current time, generated uuid,
store/queue failures) are explicit parameters.
-/

namespace OMF

/-- Falsiness of a JavaScript string-or-undefined value: `!x` is true when
the field is absent (undefined/null) or the empty string. -/
def jsStrFalsy : Option String → Bool
  | none => true
  | some s => s == ""

/-- JavaScript `x || d` for a string-or-undefined `x`: yields `d` when `x`
is absent or empty, otherwise `x`. -/
def jsOr (x : Option String) (d : String) : String :=
  match x with
  | none => d
  | some s => if s == "" then d else s

/-- A stored user item. `id` is the table's primary key; every other
attribute may be absent from the item (`none` models an attribute omitted
from the marshalled write, e.g. by `removeUndefinedValues`). -/
structure UserRecord where
  id : String
  firstName : Option String
  lastName : Option String
  email : Option String
  dob : Option String
  status : Option String
  createdAt : Option String
  updatedAt : Option String
  deriving Repr, DecidableEq

/-- The `user` object of a parsed message body; every field may be absent. -/
structure UserPayload where
  id : Option String
  firstName : Option String
  lastName : Option String
  email : Option String
  dob : Option String
  status : Option String
  deriving Repr, DecidableEq

/-- The body of an SQS message as seen by `handleUserEvent`: missing body,
a body that fails `JSON.parse`, or a parsed object with optional `user`
and `operation` fields. -/
inductive MsgBody where
  | noBody
  | badJson
  | parsed (user : Option UserPayload) (operation : Option String)
  deriving Repr, DecidableEq

/-- The exceptions that can be thrown inside the dispatcher's outer try
block. -/
inductive DispatchError where
  | missingBody
  | jsonParseError
  | invalidStructure
  | missingUpdateId
  | missingStatusId
  | updateFailed
  | statusUpdateFailed
  deriving Repr, DecidableEq

/-- A DynamoDB write failure: the condition expression failed, or an
underlying (transient) store error. -/
inductive StoreWriteError where
  | conditionFailed
  | transientError
  deriving Repr, DecidableEq

/-- The DynamoDB table contents. -/
abbrev Store := List UserRecord

/-- `PutItemCommand` semantics: unconditional write, replacing an existing
item with the same primary key, otherwise inserting. -/
def putItem (store : Store) (item : UserRecord) : Store :=
  if store.any (fun r => r.id == item.id) then
    store.map (fun r => if r.id == item.id then item else r)
  else
    store ++ [item]

/-- `UpdateItemCommand` with `ConditionExpression: attribute_exists(id)`:
fails when the store itself errors, fails the condition check when no item
with the key exists, otherwise applies the field updates to that item. -/
def updateItem (store : Store) (key : String) (upd : UserRecord → UserRecord)
    (storeErr : Bool) : Except StoreWriteError Store :=
  if storeErr then
    Except.error StoreWriteError.transientError
  else if store.any (fun r => r.id == key) then
    Except.ok (store.map (fun r => if r.id == key then upd r else r))
  else
    Except.error StoreWriteError.conditionFailed

/-- The item marshalled for the create branch: fresh uuid as `id`, the
payload's `firstName`/`lastName`/`email`/`dob` (absent fields removed by
`removeUndefinedValues`), `status` from `user.status || 'active'`, and the
timestamps taken from two consecutive but distinct clock reads: `createdAt`
from the first `new Date().toISOString()` call and `updatedAt` from the
second. The two reads are not guaranteed to return the same string. -/
def createItem (u : UserPayload) (nowC nowU fid : String) : UserRecord :=
  { id := fid
    firstName := u.firstName
    lastName := u.lastName
    email := u.email
    dob := u.dob
    status := some (jsOr u.status "active")
    createdAt := some nowC
    updatedAt := some nowU }

/-- The update expression of the update branch:
`SET firstName, lastName, dob, updatedAt, status` with each name field
`user.f || ''` and `status` the constant `"updated"`. -/
def updateFields (u : UserPayload) (now : String) (r : UserRecord) : UserRecord :=
  { r with
    firstName := some (jsOr u.firstName "")
    lastName := some (jsOr u.lastName "")
    dob := some (jsOr u.dob "")
    updatedAt := some now
    status := some "updated" }

/-- The update expression of the updateStatus branch:
`SET status, updatedAt` with `status` being `user.status || ''`. -/
def updateStatusFields (u : UserPayload) (now : String) (r : UserRecord) : UserRecord :=
  { r with
    status := some (jsOr u.status "")
    updatedAt := some now }

/-- The body of the dispatcher's outer try block. Errors are the thrown
exceptions, paired with the store contents at the point of the throw.
A normal result carries the store and whether an error was logged by an
inner catch (the create branch logs and swallows its own store errors).
The clock reads performed during one dispatch are explicit parameters:
`nowC` and `nowU` are the two reads marshalled into the create item
(`createdAt` and `updatedAt` respectively), and `nowM` is the read taken
inside the executed update or updateStatus branch when building its
expression values. -/
def handleUserEventCore (msg : MsgBody) (store : Store) (nowC nowU nowM fid : String)
    (storeErr : Bool) : Except (DispatchError × Store) (Store × Bool) :=
  match msg with
  | MsgBody.noBody => Except.error (DispatchError.missingBody, store)
  | MsgBody.badJson => Except.error (DispatchError.jsonParseError, store)
  | MsgBody.parsed user? op? =>
    match user?, op? with
    | some u, some op =>
      if op == "" then Except.error (DispatchError.invalidStructure, store)
      else if op == "create" then
        if storeErr then Except.ok (store, true)
        else Except.ok (putItem store (createItem u nowC nowU fid), false)
      else if op == "update" then
        if jsStrFalsy u.id then Except.error (DispatchError.missingUpdateId, store)
        else
          match updateItem store (jsOr u.id "") (updateFields u nowM) storeErr with
          | Except.ok s2 => Except.ok (s2, false)
          | Except.error _ => Except.error (DispatchError.updateFailed, store)
      else if op == "updateStatus" then
        if jsStrFalsy u.id then Except.error (DispatchError.missingStatusId, store)
        else
          match updateItem store (jsOr u.id "") (updateStatusFields u nowM) storeErr with
          | Except.ok s2 => Except.ok (s2, false)
          | Except.error _ => Except.error (DispatchError.statusUpdateFailed, store)
      else
        Except.ok (store, false)
    | _, _ => Except.error (DispatchError.invalidStructure, store)

/-- The dispatcher `handleUserEvent`: the outer catch turns every thrown
exception into a logged error, so the function always returns normally.
The Bool reports whether a failure was logged. -/
def handleUserEvent (msg : MsgBody) (store : Store) (nowC nowU nowM fid : String)
    (storeErr : Bool) : Store × Bool :=
  match handleUserEventCore msg store nowC nowU nowM fid storeErr with
  | Except.ok res => res
  | Except.error es => (es.2, true)

/-- One received message together with its environment at processing time:
the receipt handle, the clock reads and generated uuid the dispatcher
would observe (the two reads marshalled into a create item and the read
taken in an update branch), and whether the DynamoDB send or the SQS
delete would fail for this message. -/
structure MsgCtx where
  body : MsgBody
  handle : String
  nowC : String
  nowU : String
  nowM : String
  freshId : String
  storeErr : Bool
  deleteErr : Bool
  deriving Repr, DecidableEq

/-- The outcome of one `ReceiveMessageCommand`: the send threw, or a
(possibly empty) batch of messages arrived. -/
inductive ReceiveOutcome where
  | err
  | batch (msgs : List MsgCtx)
  deriving Repr, DecidableEq

/-- How one iteration of `pollQueue` schedules the next: an immediate
recursive call, or a `setTimeout` of the given number of milliseconds. -/
inductive NextAction where
  | immediate
  | waitThen (ms : Nat)
  deriving Repr, DecidableEq

/-- The observable result of one `pollQueue` iteration: the store after
the batch, the receipt handles deleted from the queue, and how the next
iteration is scheduled. -/
structure IterResult where
  store : Store
  deleted : List String
  next : NextAction
  deriving Repr, DecidableEq

/-- The parameters of the receive call. -/
structure ReceiveRequest where
  maxNumberOfMessages : Nat
  waitTimeSeconds : Nat
  deriving Repr, DecidableEq

/-- The `ReceiveMessageCommand` built each iteration: up to 10 messages,
20-second long poll. -/
def receiveRequest : ReceiveRequest := ⟨10, 20⟩

/-- The `pollingInterval` field: 10000 milliseconds. -/
def pollingInterval : Nat := 10000

/-- The for-loop over a non-empty batch: for each message in receipt order,
dispatch it, then delete it; a throwing delete aborts the loop (the error
reaches the iteration's catch). Returns the store, the accumulated deleted
handles, and whether a delete threw. -/
def processBatch : List MsgCtx → Store → List String → Store × List String × Bool
  | [], s, acc => (s, acc, false)
  | m :: rest, s, acc =>
    let s2 := (handleUserEvent m.body s m.nowC m.nowU m.nowM m.freshId m.storeErr).1
    if m.deleteErr then (s2, acc, true)
    else processBatch rest s2 (acc ++ [m.handle])

/-- One iteration of `pollQueue`: a receive error or an empty batch logs
and schedules the next poll after `pollingInterval`; a non-empty batch is
processed message by message and, unless a delete threw, the next poll is
started immediately. -/
def pollIteration (o : ReceiveOutcome) (s : Store) : IterResult :=
  match o with
  | ReceiveOutcome.err => ⟨s, [], NextAction.waitThen pollingInterval⟩
  | ReceiveOutcome.batch msgs =>
    if msgs.isEmpty then ⟨s, [], NextAction.waitThen pollingInterval⟩
    else
      let p := processBatch msgs s []
      if p.2.2 then ⟨p.1, p.2.1, NextAction.waitThen pollingInterval⟩
      else ⟨p.1, p.2.1, NextAction.immediate⟩

/-- The query against the `email-dob-index` secondary index: items whose
`email` and `dob` attributes both equal the given values. -/
def queryByEmailDob (store : Store) (email dob : String) : List UserRecord :=
  store.filter (fun r => r.email == some email && r.dob == some dob)

/-- The query by primary key: items whose `id` equals the given value. -/
def queryById (store : Store) (i : String) : List UserRecord :=
  store.filter (fun r => r.id == i)

/-- The try block of `getUserStatus`: a store failure throws; zero matches
throws `User not found`; otherwise the first item's `(id, status)` pair is
returned (reading `.status.S` of an item without a status attribute
throws a TypeError). -/
def getUserStatusTry (store : Store) (email dob : String) (storeErr : Bool) :
    Except String (String × String) :=
  if storeErr then Except.error "store error"
  else
    match queryByEmailDob store email dob with
    | [] => Except.error "User not found"
    | u :: _ =>
      match u.status with
      | some st => Except.ok (u.id, st)
      | none => Except.error "TypeError"

/-- The endpoint `getUserStatus(email, dob)`: rejects empty arguments,
then runs the try block; its catch logs any thrown error and re-throws
the generic failure message. -/
def getUserStatus (email dob : String) (store : Store) (storeErr : Bool) :
    Except String (String × String) :=
  if email == "" || dob == "" then
    Except.error "Both email and date of birth must be provided."
  else
    match getUserStatusTry store email dob storeErr with
    | Except.ok v => Except.ok v
    | Except.error _ => Except.error "Failed to check user status"

/-- The try block of `getEntireUserDetails`: a store failure throws; zero
matches throws `User not found`; otherwise the first matching item is
returned. -/
def getEntireUserDetailsTry (store : Store) (i : String) (storeErr : Bool) :
    Except String UserRecord :=
  if storeErr then Except.error "store error"
  else
    match queryById store i with
    | [] => Except.error "User not found"
    | u :: _ => Except.ok u

/-- The endpoint `getEntireUserDetails(id)`: rejects an empty id, then
runs the try block; its catch logs any thrown error and re-throws the
generic failure message. -/
def getEntireUserDetails (i : String) (store : Store) (storeErr : Bool) :
    Except String UserRecord :=
  if i == "" then
    Except.error "Both email and date of birth must be provided."
  else
    match getEntireUserDetailsTry store i storeErr with
    | Except.ok v => Except.ok v
    | Except.error _ => Except.error "Failed to check user status"

/-- Helper: a falsy string-or-undefined value ORed with the empty string
yields the empty string. -/
theorem jsOr_empty_of_falsy (x : Option String) (h : jsStrFalsy x = true) :
    jsOr x "" = "" := by
  cases x with
  | none => rfl
  | some s =>
    simp only [jsStrFalsy, beq_iff_eq] at h
    simp [jsOr, h]

/-- Helper: over a batch whose deletes all succeed, the for-loop deletes
every message's receipt handle, in order, and reports no delete error. -/
theorem processBatch_all_deletes (msgs : List MsgCtx) :
    ∀ (s : Store) (acc : List String), (∀ m ∈ msgs, m.deleteErr = false) →
      (processBatch msgs s acc).2.1 = acc ++ msgs.map MsgCtx.handle
      ∧ (processBatch msgs s acc).2.2 = false := by
  induction msgs with
  | nil => intro s acc _; simp [processBatch]
  | cons m rest ih =>
    intro s acc h
    have hm : m.deleteErr = false := h m (List.mem_cons_self m rest)
    have hr : ∀ x ∈ rest, x.deleteErr = false :=
      fun x hx => h x (List.mem_cons_of_mem m hx)
    have := ih ((handleUserEvent m.body s m.nowC m.nowU m.nowM m.freshId m.storeErr).1)
      (acc ++ [m.handle]) hr
    simp [processBatch, hm, this.1, this.2]

/-- Helper: if some message's delete throws, the for-loop reports the
delete error (the iteration's catch fires). -/
theorem processBatch_delete_error (msgs : List MsgCtx) :
    ∀ (s : Store) (acc : List String), (∃ m ∈ msgs, m.deleteErr = true) →
      (processBatch msgs s acc).2.2 = true := by
  induction msgs with
  | nil => intro s acc h; simp at h
  | cons m rest ih =>
    intro s acc h
    by_cases hm : m.deleteErr = true
    · simp [processBatch, hm]
    · have hm2 : m.deleteErr = false := by
        cases hb : m.deleteErr with
        | false => rfl
        | true => exact absurd hb hm
      obtain ⟨x, hx, hxe⟩ := h
      rcases List.mem_cons.mp hx with hEq | hx2
      · subst hEq; exact absurd hxe hm
      · have := ih ((handleUserEvent m.body s m.nowC m.nowU m.nowM m.freshId m.storeErr).1)
          (acc ++ [m.handle]) ⟨x, hx2, hxe⟩
        simp [processBatch, hm2, this]

/-- Claim C1 (counterexample): on an empty store, a lookup that matches
zero records surfaces exactly the same generic error as a lookup whose
underlying store call fails — the caller cannot tell "no such user" from
"lookup failed" for either endpoint. -/
theorem notFound_equals_genericFailure_cex :
    getUserStatus "a@b.com" "1990-01-01" [] false
      = Except.error "Failed to check user status"
    ∧ getUserStatus "a@b.com" "1990-01-01" [] true
      = Except.error "Failed to check user status"
    ∧ getEntireUserDetails "abc" [] false
      = Except.error "Failed to check user status"
    ∧ getEntireUserDetails "abc" [] true
      = Except.error "Failed to check user status" :=
  ⟨rfl, rfl, rfl, rfl⟩

/-- Claim C1 (amended): a zero-match lookup does raise a not-found error
internally, but the surrounding catch wraps it into the same generic
"Failed to check user status" error produced for an underlying store
failure, for both getUserStatus and getEntireUserDetails: the caller
receives an identical error in the two cases. -/
theorem notFound_wrapped_into_generic (email dob i : String) (store : Store)
    (he : email ≠ "") (hd : dob ≠ "") (hi : i ≠ "")
    (hq : queryByEmailDob store email dob = [])
    (hk : queryById store i = []) :
    getUserStatus email dob store false = Except.error "Failed to check user status"
    ∧ getUserStatus email dob store true = Except.error "Failed to check user status"
    ∧ getEntireUserDetails i store false = Except.error "Failed to check user status"
    ∧ getEntireUserDetails i store true = Except.error "Failed to check user status" := by
  unfold getUserStatus getEntireUserDetails getUserStatusTry getEntireUserDetailsTry
  simp [hq, hk, he, hd, hi]

/-- Witness for C1's amended theorem at a concrete empty store. -/
theorem notFound_wrapped_into_generic_witness :
    getUserStatus "x@y.com" "1980-05-05" [] false
      = Except.error "Failed to check user status"
    ∧ getUserStatus "x@y.com" "1980-05-05" [] true
      = Except.error "Failed to check user status"
    ∧ getEntireUserDetails "id-9" [] false
      = Except.error "Failed to check user status"
    ∧ getEntireUserDetails "id-9" [] true
      = Except.error "Failed to check user status" :=
  notFound_wrapped_into_generic "x@y.com" "1980-05-05" "id-9" []
    (by decide) (by decide) (by decide) rfl rfl

/-- Claim C2: the dispatcher's outer catch converts every thrown failure
into a logged error and returns normally (the store at the throw point is
returned unchanged); the create branch's inner catch likewise swallows a
store failure; and, over a batch whose queue deletes succeed, the loop
deletes every message's receipt handle regardless of whether its dispatch
logged a failure. -/
theorem dispatcher_swallows_loop_deletes :
    (∀ (msg : MsgBody) (store : Store) (nowC nowU nowM fid : String) (serr : Bool)
        (err : DispatchError) (s2 : Store),
        handleUserEventCore msg store nowC nowU nowM fid serr = Except.error (err, s2) →
        handleUserEvent msg store nowC nowU nowM fid serr = (s2, true))
    ∧ (∀ (u : UserPayload) (store : Store) (nowC nowU nowM fid : String),
        handleUserEvent (MsgBody.parsed (some u) (some "create")) store nowC nowU nowM fid true
          = (store, true))
    ∧ (∀ (msgs : List MsgCtx) (store : Store),
        (∀ m ∈ msgs, m.deleteErr = false) →
        (pollIteration (ReceiveOutcome.batch msgs) store).deleted
          = msgs.map MsgCtx.handle) := by
  refine ⟨?_, ?_, ?_⟩
  · intro msg store nowC nowU nowM fid serr err s2 h
    unfold handleUserEvent
    rw [h]
  · intro u store nowC nowU nowM fid
    unfold handleUserEvent handleUserEventCore
    simp
  · intro msgs store h
    cases msgs with
    | nil => simp [pollIteration]
    | cons m rest =>
      have hp := processBatch_all_deletes (m :: rest) store [] h
      simp [pollIteration, hp.1, hp.2]

/-- Witness for C2 at a concrete failing message: a message with no body
is swallowed by the dispatcher and still deleted by the loop. -/
theorem dispatcher_swallows_loop_deletes_witness :
    handleUserEvent MsgBody.noBody [] "t0" "t1" "t2" "id0" false = ([], true)
    ∧ (pollIteration
        (ReceiveOutcome.batch [⟨MsgBody.noBody, "h1", "t0", "t1", "t2", "id0", false, false⟩])
        []).deleted = ["h1"] :=
  ⟨dispatcher_swallows_loop_deletes.1 MsgBody.noBody [] "t0" "t1" "t2" "id0" false
      DispatchError.missingBody [] rfl,
   dispatcher_swallows_loop_deletes.2.2
      [⟨MsgBody.noBody, "h1", "t0", "t1", "t2", "id0", false, false⟩] []
      (by intro m hm; simp at hm; subst hm; rfl)⟩

/-- Helper: on an existing id, the update branch returns normally and
rewrites the store by applying the update expression to the matching
item. -/
theorem update_dispatch_eq (u : UserPayload) (store : Store) (nowC nowU nowM fid i : String)
    (hid : u.id = some i) (hne : i ≠ "")
    (hex : store.any (fun r => r.id == i) = true) :
    handleUserEvent (MsgBody.parsed (some u) (some "update")) store nowC nowU nowM fid false
      = (store.map (fun r => if r.id == i then updateFields u nowM r else r), false) := by
  unfold handleUserEvent handleUserEventCore updateItem
  simp [hid, jsStrFalsy, jsOr, hne, hex]

/-- Helper: on an existing id, the updateStatus branch returns normally
and rewrites the store by applying the status update expression to the
matching item. -/
theorem updateStatus_dispatch_eq (u : UserPayload) (store : Store) (nowC nowU nowM fid i : String)
    (hid : u.id = some i) (hne : i ≠ "")
    (hex : store.any (fun r => r.id == i) = true) :
    handleUserEvent (MsgBody.parsed (some u) (some "updateStatus")) store nowC nowU nowM fid false
      = (store.map (fun r => if r.id == i then updateStatusFields u nowM r else r), false) := by
  unfold handleUserEvent handleUserEventCore updateItem
  simp [hid, jsStrFalsy, jsOr, hne, hex]

/-- Claim C3: an update or updateStatus targeting an id with no existing
record fails the conditional existence guard: the store is returned
unchanged (no record created, none modified) and the failure is logged,
whether or not the store call also errors. -/
theorem update_nonexistent_id_rejected (u : UserPayload) (store : Store)
    (nowC nowU nowM fid i : String) (serr : Bool) (hid : u.id = some i) (hne : i ≠ "")
    (hnex : store.any (fun r => r.id == i) = false) :
    handleUserEvent (MsgBody.parsed (some u) (some "update")) store nowC nowU nowM fid serr
      = (store, true)
    ∧ handleUserEvent (MsgBody.parsed (some u) (some "updateStatus")) store nowC nowU nowM fid serr
      = (store, true) := by
  unfold handleUserEvent handleUserEventCore updateItem
  cases serr <;> simp [hid, jsStrFalsy, jsOr, hne, hnex]

/-- Witness for C3: updating id "abc" against an empty store is rejected
and leaves the store empty. -/
theorem update_nonexistent_id_rejected_witness :
    handleUserEvent
      (MsgBody.parsed (some ⟨some "abc", none, none, none, none, none⟩) (some "update"))
      [] "t0" "t1" "t2" "id0" false = ([], true)
    ∧ handleUserEvent
      (MsgBody.parsed (some ⟨some "abc", none, none, none, none, none⟩) (some "updateStatus"))
      [] "t0" "t1" "t2" "id0" false = ([], true) :=
  update_nonexistent_id_rejected ⟨some "abc", none, none, none, none, none⟩ []
    "t0" "t1" "t2" "id0" "abc" false rfl (by decide) rfl

/-- Claim C4 (counterexample): the create branch takes its two timestamps
from two separate, consecutive clock reads; when the clock ticks between
the reads, the written record has createdAt different from updatedAt, so
the claimed equality does not hold of every execution. -/
theorem create_timestamp_reads_differ_cex :
    handleUserEvent
      (MsgBody.parsed (some ⟨none, some "John", none, none, none, none⟩) (some "create"))
      [] "2024-01-01T00:00:00.000Z" "2024-01-01T00:00:00.001Z" "T" "uuid-7" false
      = (putItem []
          (createItem ⟨none, some "John", none, none, none, none⟩
            "2024-01-01T00:00:00.000Z" "2024-01-01T00:00:00.001Z" "uuid-7"), false)
    ∧ (createItem ⟨none, some "John", none, none, none, none⟩
        "2024-01-01T00:00:00.000Z" "2024-01-01T00:00:00.001Z" "uuid-7").createdAt
      ≠ (createItem ⟨none, some "John", none, none, none, none⟩
        "2024-01-01T00:00:00.000Z" "2024-01-01T00:00:00.001Z" "uuid-7").updatedAt :=
  ⟨rfl, by decide⟩

/-- Claim C4 (amended): a create writes (unconditionally, via put) a
record whose id is the freshly generated uuid (never the payload's id),
whose status is the payload's status, defaulting to "active" when absent,
whose createdAt and updatedAt come from the two consecutive clock reads
at creation — equal exactly when the two reads return the same string —
and in which every name/email/dob field absent from the payload is
omitted rather than stored as null or empty. -/
theorem create_record_shape (u : UserPayload) (store : Store) (nowC nowU nowM fid : String) :
    handleUserEvent (MsgBody.parsed (some u) (some "create")) store nowC nowU nowM fid false
      = (putItem store (createItem u nowC nowU fid), false)
    ∧ (createItem u nowC nowU fid).id = fid
    ∧ (u.status = none → (createItem u nowC nowU fid).status = some "active")
    ∧ (∀ s, u.status = some s → s ≠ "" → (createItem u nowC nowU fid).status = some s)
    ∧ (createItem u nowC nowU fid).createdAt = some nowC
    ∧ (createItem u nowC nowU fid).updatedAt = some nowU
    ∧ (nowC = nowU →
        (createItem u nowC nowU fid).createdAt = (createItem u nowC nowU fid).updatedAt)
    ∧ (u.firstName = none → (createItem u nowC nowU fid).firstName = none)
    ∧ (u.lastName = none → (createItem u nowC nowU fid).lastName = none)
    ∧ (u.email = none → (createItem u nowC nowU fid).email = none)
    ∧ (u.dob = none → (createItem u nowC nowU fid).dob = none) := by
  refine ⟨?_, rfl, ?_, ?_, rfl, rfl, ?_, ?_, ?_, ?_, ?_⟩
  · unfold handleUserEvent handleUserEventCore
    simp
  · intro h; simp [createItem, jsOr, h]
  · intro s hs hne; simp [createItem, jsOr, hs, hne]
  · intro h; simp [createItem, h]
  · intro h; simp [createItem, h]
  · intro h; simp [createItem, h]
  · intro h; simp [createItem, h]
  · intro h; simp [createItem, h]

/-- Witness for C4's amended theorem at a concrete payload carrying an id
and an absent status, with the two clock reads returning the same string:
the stored record takes the generated uuid, status "active", equal
timestamps, and omits the absent lastName. -/
theorem create_record_shape_witness :
    handleUserEvent
      (MsgBody.parsed (some ⟨some "payload-id", some "John", none, some "john@x.com", some "2000-01-01", none⟩)
        (some "create")) [] "T1" "T1" "T2" "uuid-1" false
      = (putItem [] (createItem ⟨some "payload-id", some "John", none, some "john@x.com", some "2000-01-01", none⟩ "T1" "T1" "uuid-1"), false)
    ∧ (createItem ⟨some "payload-id", some "John", none, some "john@x.com", some "2000-01-01", none⟩ "T1" "T1" "uuid-1").id = "uuid-1"
    ∧ (createItem ⟨some "payload-id", some "John", none, some "john@x.com", some "2000-01-01", none⟩ "T1" "T1" "uuid-1").status = some "active"
    ∧ (createItem ⟨some "payload-id", some "John", none, some "john@x.com", some "2000-01-01", none⟩ "T1" "T1" "uuid-1").createdAt
      = (createItem ⟨some "payload-id", some "John", none, some "john@x.com", some "2000-01-01", none⟩ "T1" "T1" "uuid-1").updatedAt
    ∧ (createItem ⟨some "payload-id", some "John", none, some "john@x.com", some "2000-01-01", none⟩ "T1" "T1" "uuid-1").lastName = none :=
  let u : UserPayload := ⟨some "payload-id", some "John", none, some "john@x.com", some "2000-01-01", none⟩
  let h := create_record_shape u [] "T1" "T1" "T2" "uuid-1"
  ⟨h.1, h.2.1, h.2.2.1 rfl, h.2.2.2.2.2.2.1 rfl, h.2.2.2.2.2.2.2.2.1 rfl⟩

/-- Claim C5: on an existing record, an update rewrites exactly the
matching item via the update expression, and that expression sets
firstName, lastName, dob, updatedAt, and status (forced to the constant
"updated" irrespective of the payload) while leaving email, createdAt,
and the id untouched. -/
theorem update_touches_exact_fields (u : UserPayload) (store : Store)
    (nowC nowU nowM fid i : String) (hid : u.id = some i) (hne : i ≠ "")
    (hex : store.any (fun r => r.id == i) = true) :
    handleUserEvent (MsgBody.parsed (some u) (some "update")) store nowC nowU nowM fid false
      = (store.map (fun r => if r.id == i then updateFields u nowM r else r), false)
    ∧ ∀ r : UserRecord,
        (updateFields u nowM r).email = r.email
        ∧ (updateFields u nowM r).createdAt = r.createdAt
        ∧ (updateFields u nowM r).id = r.id
        ∧ (updateFields u nowM r).firstName = some (jsOr u.firstName "")
        ∧ (updateFields u nowM r).lastName = some (jsOr u.lastName "")
        ∧ (updateFields u nowM r).dob = some (jsOr u.dob "")
        ∧ (updateFields u nowM r).status = some "updated"
        ∧ (updateFields u nowM r).updatedAt = some nowM :=
  ⟨update_dispatch_eq u store nowC nowU nowM fid i hid hne hex,
   fun _ => ⟨rfl, rfl, rfl, rfl, rfl, rfl, rfl, rfl⟩⟩

/-- Witness for C5: updating existing record "abc" (which carries an email
and a createdAt) sets status to "updated" and preserves email and
createdAt. -/
theorem update_touches_exact_fields_witness :
    handleUserEvent
      (MsgBody.parsed (some ⟨some "abc", some "Jane", none, none, none, none⟩) (some "update"))
      [⟨"abc", some "John", some "Doe", some "j@x.com", some "2000-01-01", some "active", some "T0", some "T0"⟩]
      "Ta" "Tb" "T1" "uuid-2" false
      = ([⟨"abc", some "John", some "Doe", some "j@x.com", some "2000-01-01", some "active", some "T0", some "T0"⟩].map
          (fun r => if r.id == "abc" then updateFields ⟨some "abc", some "Jane", none, none, none, none⟩ "T1" r else r), false)
    ∧ (updateFields ⟨some "abc", some "Jane", none, none, none, none⟩ "T1"
        ⟨"abc", some "John", some "Doe", some "j@x.com", some "2000-01-01", some "active", some "T0", some "T0"⟩).email
        = some "j@x.com" :=
  let h := update_touches_exact_fields ⟨some "abc", some "Jane", none, none, none, none⟩
    [⟨"abc", some "John", some "Doe", some "j@x.com", some "2000-01-01", some "active", some "T0", some "T0"⟩]
    "Ta" "Tb" "T1" "uuid-2" "abc" rfl (by decide) (by decide)
  ⟨h.1, (h.2 ⟨"abc", some "John", some "Doe", some "j@x.com", some "2000-01-01", some "active", some "T0", some "T0"⟩).1⟩

/-- Claim C6: on an existing record, an updateStatus rewrites exactly the
matching item via the status update expression, and that expression sets
only status (the payload value, or the empty string when falsy) and
updatedAt, preserving firstName, lastName, dob, email, createdAt, and the
id. -/
theorem updateStatus_touches_only_status (u : UserPayload) (store : Store)
    (nowC nowU nowM fid i : String) (hid : u.id = some i) (hne : i ≠ "")
    (hex : store.any (fun r => r.id == i) = true) :
    handleUserEvent (MsgBody.parsed (some u) (some "updateStatus")) store nowC nowU nowM fid false
      = (store.map (fun r => if r.id == i then updateStatusFields u nowM r else r), false)
    ∧ ∀ r : UserRecord,
        (updateStatusFields u nowM r).firstName = r.firstName
        ∧ (updateStatusFields u nowM r).lastName = r.lastName
        ∧ (updateStatusFields u nowM r).dob = r.dob
        ∧ (updateStatusFields u nowM r).email = r.email
        ∧ (updateStatusFields u nowM r).createdAt = r.createdAt
        ∧ (updateStatusFields u nowM r).id = r.id
        ∧ (updateStatusFields u nowM r).status = some (jsOr u.status "")
        ∧ (updateStatusFields u nowM r).updatedAt = some nowM :=
  ⟨updateStatus_dispatch_eq u store nowC nowU nowM fid i hid hne hex,
   fun _ => ⟨rfl, rfl, rfl, rfl, rfl, rfl, rfl, rfl⟩⟩

/-- Witness for C6: a status-only update of existing record "abc"
preserves its firstName and email. -/
theorem updateStatus_touches_only_status_witness :
    handleUserEvent
      (MsgBody.parsed (some ⟨some "abc", none, none, none, none, some "inactive"⟩) (some "updateStatus"))
      [⟨"abc", some "John", some "Doe", some "j@x.com", some "2000-01-01", some "active", some "T0", some "T0"⟩]
      "Ta" "Tb" "T1" "uuid-3" false
      = ([⟨"abc", some "John", some "Doe", some "j@x.com", some "2000-01-01", some "active", some "T0", some "T0"⟩].map
          (fun r => if r.id == "abc" then updateStatusFields ⟨some "abc", none, none, none, none, some "inactive"⟩ "T1" r else r), false)
    ∧ (updateStatusFields ⟨some "abc", none, none, none, none, some "inactive"⟩ "T1"
        ⟨"abc", some "John", some "Doe", some "j@x.com", some "2000-01-01", some "active", some "T0", some "T0"⟩).firstName
        = some "John" :=
  let h := updateStatus_touches_only_status ⟨some "abc", none, none, none, none, some "inactive"⟩
    [⟨"abc", some "John", some "Doe", some "j@x.com", some "2000-01-01", some "active", some "T0", some "T0"⟩]
    "Ta" "Tb" "T1" "uuid-3" "abc" rfl (by decide) (by decide)
  ⟨h.1, (h.2 ⟨"abc", some "John", some "Doe", some "j@x.com", some "2000-01-01", some "active", some "T0", some "T0"⟩).1⟩

/-- Claim C7: a message with no body, a parsed body lacking both the user
object and the operation tag, or an update/updateStatus payload whose id
is missing (falsy) causes no store write at all: the dispatcher returns
the store unchanged with the failure logged and swallowed, for any store
error condition. -/
theorem malformed_message_no_write (store : Store) (nowC nowU nowM fid : String)
    (serr : Bool) (u : UserPayload) (hid : jsStrFalsy u.id = true) :
    handleUserEvent MsgBody.noBody store nowC nowU nowM fid serr = (store, true)
    ∧ handleUserEvent (MsgBody.parsed none none) store nowC nowU nowM fid serr = (store, true)
    ∧ handleUserEvent (MsgBody.parsed (some u) (some "update")) store nowC nowU nowM fid serr
      = (store, true)
    ∧ handleUserEvent (MsgBody.parsed (some u) (some "updateStatus")) store nowC nowU nowM fid serr
      = (store, true) := by
  unfold handleUserEvent handleUserEventCore
  refine ⟨rfl, rfl, ?_, ?_⟩ <;> simp [hid]

/-- Witness for C7: concrete malformed messages (no body; neither user
nor operation; update and updateStatus without an id) leave an empty
store empty with the failure flagged. -/
theorem malformed_message_no_write_witness :
    handleUserEvent MsgBody.noBody [] "t0" "t1" "t2" "id0" false = ([], true)
    ∧ handleUserEvent (MsgBody.parsed none none) [] "t0" "t1" "t2" "id0" false = ([], true)
    ∧ handleUserEvent
        (MsgBody.parsed (some ⟨none, some "Jane", none, none, none, none⟩) (some "update"))
        [] "t0" "t1" "t2" "id0" false = ([], true)
    ∧ handleUserEvent
        (MsgBody.parsed (some ⟨none, some "Jane", none, none, none, none⟩) (some "updateStatus"))
        [] "t0" "t1" "t2" "id0" false = ([], true) :=
  malformed_message_no_write [] "t0" "t1" "t2" "id0" false
    ⟨none, some "Jane", none, none, none, none⟩ rfl

/-- Claim C8 (counterexample): a non-empty batch does not always lead to
an immediate re-poll — when the queue delete of a message throws, the
iteration's catch fires and the loop waits the fixed interval instead. -/
theorem poll_nonempty_not_immediate_cex :
    ([⟨MsgBody.noBody, "h1", "t0", "t1", "t2", "id0", false, true⟩] : List MsgCtx) ≠ []
    ∧ (pollIteration
        (ReceiveOutcome.batch [⟨MsgBody.noBody, "h1", "t0", "t1", "t2", "id0", false, true⟩])
        []).next = NextAction.waitThen 10000 :=
  ⟨by decide, rfl⟩

/-- Claim C8 (amended): every iteration requests up to 10 messages with a
20-second long poll; a receive error or an empty batch schedules the next
receive after exactly the fixed 10000 ms interval; a non-empty batch all
of whose deletes succeed re-polls immediately; a delete failure inside a
batch is treated like a receive error (fixed-interval wait); and every
iteration schedules a next one, so the loop never terminates. -/
theorem poll_schedule (o : ReceiveOutcome) (store : Store) (msgs : List MsgCtx) :
    receiveRequest.maxNumberOfMessages = 10
    ∧ receiveRequest.waitTimeSeconds = 20
    ∧ (pollIteration ReceiveOutcome.err store).next = NextAction.waitThen pollingInterval
    ∧ (pollIteration (ReceiveOutcome.batch []) store).next = NextAction.waitThen pollingInterval
    ∧ pollingInterval = 10000
    ∧ (msgs ≠ [] → (∀ m ∈ msgs, m.deleteErr = false) →
        (pollIteration (ReceiveOutcome.batch msgs) store).next = NextAction.immediate)
    ∧ ((∃ m ∈ msgs, m.deleteErr = true) →
        (pollIteration (ReceiveOutcome.batch msgs) store).next
          = NextAction.waitThen pollingInterval)
    ∧ ((pollIteration o store).next = NextAction.immediate
        ∨ (pollIteration o store).next = NextAction.waitThen pollingInterval) := by
  refine ⟨rfl, rfl, rfl, rfl, rfl, ?_, ?_, ?_⟩
  · intro hne h
    have hp := processBatch_all_deletes msgs store [] h
    cases msgs with
    | nil => exact absurd rfl hne
    | cons m rest => simp [pollIteration, hp.2]
  · intro h
    have hne : msgs ≠ [] := by
      obtain ⟨x, hx, _⟩ := h
      intro hnil
      rw [hnil] at hx
      simp at hx
    have hp := processBatch_delete_error msgs store [] h
    cases msgs with
    | nil => exact absurd rfl hne
    | cons m rest => simp [pollIteration, hp]
  · cases o with
    | err => exact Or.inr rfl
    | batch ms =>
      cases ms with
      | nil => exact Or.inr rfl
      | cons m rest =>
        unfold pollIteration
        by_cases hb : (processBatch (m :: rest) store []).2.2 = true
        · simp [hb]
        · simp [hb]

/-- Witness for C8's amended theorem: a one-message batch whose dispatch
fails (no body) but whose delete succeeds still re-polls immediately,
and the same batch with a failing delete waits the fixed interval. -/
theorem poll_schedule_witness :
    (pollIteration
      (ReceiveOutcome.batch [⟨MsgBody.noBody, "h1", "t0", "t1", "t2", "id0", false, false⟩])
      []).next = NextAction.immediate
    ∧ (pollIteration
      (ReceiveOutcome.batch [⟨MsgBody.noBody, "h1", "t0", "t1", "t2", "id0", false, true⟩])
      []).next = NextAction.waitThen pollingInterval :=
  ⟨(poll_schedule ReceiveOutcome.err [] [⟨MsgBody.noBody, "h1", "t0", "t1", "t2", "id0", false, false⟩]).2.2.2.2.2.1
      (by decide) (by intro m hm; simp at hm; subst hm; rfl),
   (poll_schedule ReceiveOutcome.err [] [⟨MsgBody.noBody, "h1", "t0", "t1", "t2", "id0", false, true⟩]).2.2.2.2.2.2.1
      ⟨⟨MsgBody.noBody, "h1", "t0", "t1", "t2", "id0", false, true⟩, by simp, rfl⟩⟩

/-- Claim C9: on an existing record, an update whose payload's firstName,
lastName, or dob is absent or empty writes the empty string for that
field through the update expression, overwriting whatever the record
held. -/
theorem update_falsy_fields_overwrite (u : UserPayload) (store : Store)
    (nowC nowU nowM fid i : String) (hid : u.id = some i) (hne : i ≠ "")
    (hex : store.any (fun r => r.id == i) = true) :
    handleUserEvent (MsgBody.parsed (some u) (some "update")) store nowC nowU nowM fid false
      = (store.map (fun r => if r.id == i then updateFields u nowM r else r), false)
    ∧ (∀ r : UserRecord, jsStrFalsy u.firstName = true →
        (updateFields u nowM r).firstName = some "")
    ∧ (∀ r : UserRecord, jsStrFalsy u.lastName = true →
        (updateFields u nowM r).lastName = some "")
    ∧ (∀ r : UserRecord, jsStrFalsy u.dob = true →
        (updateFields u nowM r).dob = some "") := by
  refine ⟨update_dispatch_eq u store nowC nowU nowM fid i hid hne hex, ?_, ?_, ?_⟩
  · intro r h; simp [updateFields, jsOr_empty_of_falsy _ h]
  · intro r h; simp [updateFields, jsOr_empty_of_falsy _ h]
  · intro r h; simp [updateFields, jsOr_empty_of_falsy _ h]

/-- Witness for C9: updating record "abc" (firstName "John", dob set)
with a payload giving only an id overwrites firstName and dob with the
empty string. -/
theorem update_falsy_fields_overwrite_witness :
    handleUserEvent
      (MsgBody.parsed (some ⟨some "abc", none, none, none, none, none⟩) (some "update"))
      [⟨"abc", some "John", some "Doe", some "j@x.com", some "2000-01-01", some "active", some "T0", some "T0"⟩]
      "Ta" "Tb" "T1" "uuid-4" false
      = ([⟨"abc", some "John", some "Doe", some "j@x.com", some "2000-01-01", some "active", some "T0", some "T0"⟩].map
          (fun r => if r.id == "abc" then updateFields ⟨some "abc", none, none, none, none, none⟩ "T1" r else r), false)
    ∧ (updateFields ⟨some "abc", none, none, none, none, none⟩ "T1"
        ⟨"abc", some "John", some "Doe", some "j@x.com", some "2000-01-01", some "active", some "T0", some "T0"⟩).firstName
        = some "" :=
  let h := update_falsy_fields_overwrite ⟨some "abc", none, none, none, none, none⟩
    [⟨"abc", some "John", some "Doe", some "j@x.com", some "2000-01-01", some "active", some "T0", some "T0"⟩]
    "Ta" "Tb" "T1" "uuid-4" "abc" rfl (by decide) (by decide)
  ⟨h.1, h.2.1 ⟨"abc", some "John", some "Doe", some "j@x.com", some "2000-01-01", some "active", some "T0", some "T0"⟩ rfl⟩

/-- Claim C10: empty-string status is treated asymmetrically: a create
payload with status equal to the empty string stores "active", exactly as
when status is absent, while an updateStatus payload with an absent or
empty status stores the empty string. -/
theorem status_empty_asymmetry (u v : UserPayload) (nowC nowU now fid : String)
    (r : UserRecord) (hc : u.status = some "") (hs : jsStrFalsy v.status = true) :
    (createItem u nowC nowU fid).status = some "active"
    ∧ (createItem { u with status := none } nowC nowU fid).status = some "active"
    ∧ (updateStatusFields v now r).status = some "" := by
  refine ⟨?_, ?_, ?_⟩
  · simp [createItem, jsOr, hc]
  · simp [createItem, jsOr]
  · simp [updateStatusFields, jsOr_empty_of_falsy _ hs]

/-- Witness for C10 at concrete payloads: status "" on create stores
"active"; status "" on updateStatus stores "". -/
theorem status_empty_asymmetry_witness :
    (createItem ⟨none, none, none, none, none, some ""⟩ "T1" "T2" "uuid-5").status = some "active"
    ∧ (updateStatusFields ⟨some "abc", none, none, none, none, some ""⟩ "T3"
        ⟨"abc", none, none, none, none, some "active", some "T0", some "T0"⟩).status = some "" :=
  let h := status_empty_asymmetry ⟨none, none, none, none, none, some ""⟩
    ⟨some "abc", none, none, none, none, some ""⟩ "T1" "T2" "T3" "uuid-5"
    ⟨"abc", none, none, none, none, some "active", some "T0", some "T0"⟩ rfl rfl
  ⟨h.1, h.2.2⟩

end OMF
